import Mathlib

/-!
Shallow embedding of the conversation-state and intent-routing engine of the
VoiceTasks WhatsApp bot (`src/index.ts`, `src/components/gtasks.ts`,
`src/components/firestore.ts`).

External collaborators (the Twilio transport, the Gemini API, the Google Tasks
HTTP API, Firestore) are modelled as explicit state or as environment-provided
functions; the control flow, string handling and state updates of the
repository's own code are translated line by line.
-/

set_option maxRecDepth 4000

namespace VoiceTasks

/-! ## Fixed user-facing message constants (`src/components/prompts.ts`) -/

/-- `MEDIA_MESSAGES.PROMPT_FOR_MEDIA`. -/
def PROMPT_FOR_MEDIA : String := "I received your file. What would you like me to do with it?"

/-- `MEDIA_MESSAGES.ERROR_MULTIPLE_MEDIA`. -/
def ERROR_MULTIPLE_MEDIA : String := "Please send only one media file at a time."

/-- `MEDIA_MESSAGES.ERROR_RECEIVING_MEDIA`. -/
def ERROR_RECEIVING_MEDIA : String := "There was an issue receiving your media file. Please try again."

/-- `MEDIA_MESSAGES.UNSUPPORTED_MEDIA_TYPE`. -/
def UNSUPPORTED_MEDIA_TYPE : String := "The media file type you sent is not currently supported. Please try an image, audio, video, or a common document format (PDF, DOCX, PPTX, XLSX)."

/-- `MEDIA_MESSAGES.ERROR_PROCESSING_PENDING_MEDIA`. -/
def ERROR_PROCESSING_PENDING_MEDIA : String := "Sorry, I encountered an error with your file. Please try sending it again."

/-- `GENERAL_MESSAGES.EMPTY_MESSAGE_BODY`. -/
def EMPTY_MESSAGE_BODY : String := "Thanks for your message! If you meant to send text, please try again, or send an audio message."

/-- `GENERAL_MESSAGES.GEMINI_EMPTY_RESPONSE`. -/
def GEMINI_EMPTY_RESPONSE : String := "I\x27m having a little trouble thinking right now. Please try again in a moment!"

/-- `WELCOME_MESSAGE`. The full text is long; the claims depend only on it being a
fixed distinct string, so we keep its opening line. -/
def WELCOME_MESSAGE : String := "👋 Hello! I\x27m *VoiceTasks*, your personal assistant for Google Tasks! 📝"

/-- `INVALID_COMMAND_MESSAGE` (abbreviated, fixed distinct string). -/
def INVALID_COMMAND_MESSAGE : String := "Invalid command. Please use one of the available commands:"

/-- `AUTH_MESSAGES.TASK_CREATION_AUTH_REQUIRED`. -/
def TASK_CREATION_AUTH_REQUIRED : String := "I\x27ve structured your task, but you need to connect your Google account first. Please use the command `/connect_google_tasks` and then send your task request again."

/-- `AUTH_MESSAGES.TASK_LISTING_AUTH_REQUIRED` (the current `prompts.ts` is not in
the sources; a fixed distinct string is all the claims need). -/
def TASK_LISTING_AUTH_REQUIRED : String := "Please connect your Google account before listing tasks. Use the command /connect_google_tasks."

/-- `AUTH_MESSAGES.TASK_DELETION_AUTH_REQUIRED` (fixed distinct string, see above). -/
def TASK_DELETION_AUTH_REQUIRED : String := "Please connect your Google account before deleting tasks. Use the command /connect_google_tasks."

/-- `AUTH_MESSAGES.ALREADY_AUTHENTICATED` (abbreviated, fixed distinct string). -/
def ALREADY_AUTHENTICATED : String := "You are already connected to Google Tasks."

/-- `AUTH_MESSAGES.DISCONNECT_SUCCESS`. -/
def DISCONNECT_SUCCESS : String := "Your Google Tasks account has been disconnected. Your tokens have been cleared."

/-- `AUTH_MESSAGES.DISCONNECT_FAILURE`. -/
def DISCONNECT_FAILURE : String := "No active Google Tasks connection found to disconnect."

/-- `TASK_MESSAGES.SUCCESS(title)`. -/
def TASK_SUCCESS (title : String) : String :=
  "✅ Task created successfully!\n\n*" ++ title ++ "* has been added to your Google Tasks and is scheduled for tomorrow at 9 AM."

/-- `TASK_MESSAGES.DELETION_PROMPT` (fixed distinct string, current `prompts.ts`
is not in the sources). -/
def DELETION_PROMPT : String := "Which of these tasks would you like to delete? Reply with the number or the exact title."

/-- `TASK_MESSAGES.DELETION_NO_TASKS` (fixed distinct string, see above). -/
def DELETION_NO_TASKS : String := "You have no tasks to delete."

/-- The literal reply of the pending-deletion branch when no task matches
(`src/index.ts`, text branch). -/
def DELETION_RETRY_MESSAGE : String := "I couldn\x27t find a task matching your reply. Please try starting the deletion process again."

/-! ## Character-level string primitives

JS `String.prototype.trim`, `toLowerCase` and `startsWith` are embedded
directly over the character list so that every definition evaluates inside
the kernel. -/

/-- JS `trim()`: drop leading and trailing whitespace. -/
def jsTrim (s : String) : String :=
  ⟨((s.toList.dropWhile Char.isWhitespace).reverse.dropWhile Char.isWhitespace).reverse⟩

/-- JS `toLowerCase()` (ASCII case mapping). -/
def jsToLower (s : String) : String := ⟨s.toList.map Char.toLower⟩

/-- JS `startsWith`. -/
def strStartsWith (s p : String) : Bool := s.toList.take p.toList.length == p.toList

/-! ## `formatGeminiResponse` (`src/index.ts`) -/

/-- Strip one leading and one trailing double quote, as the regex
`replace(/^"|"$/g, ...)` does (it removes a quote at the very start and a quote
at the very end of the string). -/
def stripOuterQuotes (s : String) : String :=
  let cs := s.toList
  let cs := if cs.head? = some '\x22' then cs.tail else cs
  let cs := if cs.getLast? = some '\x22' then cs.dropLast else cs
  ⟨cs⟩

/-- `formatGeminiResponse`: trim, strip surrounding quotes, prepend the branding
prefix (alternate variant when Google Search grounding was used). -/
def formatGeminiResponse (text : String) (withGoogleSearch : Bool) : String :=
  let trimmedText := stripOuterQuotes (jsTrim text)
  let prefixStr := if withGoogleSearch then "*Gemini* ✨ (with Google Search): " else "*Gemini* ✨: "
  prefixStr ++ " " ++ trimmedText

/-! ## Task-relevance gate `isTaskManagementRequest` (`src/index.ts`) -/

/-- The fixed bilingual keyword list of `isTaskManagementRequest`. -/
def taskKeywords : List String :=
  [ "task", "reminder", "remind me", "create task", "create reminder", "create a task", "create a reminder",
    "tarefa", "lembrete", "criar tarefa", "criar lembrete",
    "list", "show", "what are my", "see my",
    "listar", "mostrar", "quais são", "ver minhas",
    "delete", "remove", "complete",
    "deletar", "remover", "excluir", "completar" ]

/-- Substring containment, modelling JS `String.prototype.includes`. -/
def strContains (haystack needle : String) : Bool :=
  (List.range (haystack.toList.length + 1)).any
    (fun i => (haystack.toList.drop i).take needle.toList.length = needle.toList)

/-- `isTaskManagementRequest`: the lowercased message contains one of the fixed
keywords. -/
def isTaskManagementRequest (message : String) : Bool :=
  taskKeywords.any (fun keyword => strContains (jsToLower message) keyword)

/-! ## Next-business-day due date (`handleGeminiResponse`, `src/index.ts`) -/

/-- The number of calendar days added to today by the due-date computation in
`handleGeminiResponse`. `dayOfWeek` follows the JS `Date.getDay` convention:
Sunday = 0, Monday = 1, ..., Saturday = 6. The chain of conditionals is the
one in the source. -/
def nextBusinessDayDelta (dayOfWeek : Nat) : Nat :=
  if 1 ≤ dayOfWeek ∧ dayOfWeek ≤ 4 then 1
  else if dayOfWeek = 5 then 3
  else if dayOfWeek = 6 then 2
  else 1

/-! ## Deletion-reply matching `findTaskFromReply` (`src/index.ts`) -/

/-- The first maximal run of digits in a string, modelling the JS regex match
`/\d+/` (`none` when the string has no digit). -/
def firstDigitRun (s : String) : Option (List Char) :=
  match s.toList.dropWhile (fun c => !c.isDigit) with
  | [] => none
  | rest => some (rest.takeWhile Char.isDigit)

/-- Decimal value of a digit run, modelling `parseInt(digits, 10)`. -/
def digitsToNat (ds : List Char) : Nat :=
  ds.foldl (fun n c => n * 10 + (c.toNat - 48)) 0

/-- `findTaskFromReply`: exact case-insensitive (trimmed) title match first,
then the first digit run of the reply as a 1-based index into the list. -/
def findTaskFromReply (reply : String) (taskTitles : List String) : Option String :=
  let normalizedReply := jsToLower (jsTrim reply)
  match taskTitles.find? (fun title => jsToLower (jsTrim title) == normalizedReply) with
  | some title => some title
  | none =>
      match firstDigitRun normalizedReply with
      | some ds =>
          let position := digitsToNat ds
          if position > 0 ∧ position ≤ taskTitles.length then
            taskTitles.get? (position - 1)
          else none
      | none => none

/-! ## User Registry (`src/components/firestore.ts`) -/

/-- A Firestore collection: documents keyed by id. Firestore guarantees at most
one document per id; we carry the key list and its `Nodup` as an invariant. -/
abbrev Collection := List (String × String)

/-- `DocumentReference.set`: replace the document if the id exists, create it
otherwise. -/
def docSet (coll : Collection) (id data : String) : Collection :=
  if coll.any (fun kv => kv.1 == id) then
    coll.map (fun kv => if kv.1 == id then (id, data) else kv)
  else
    coll ++ [(id, data)]

/-- `isReturningUser`: the document for the sender exists in the
`returning-users` collection. -/
def isReturningUser (coll : Collection) (senderId : String) : Bool :=
  coll.any (fun kv => kv.1 == senderId)

/-- `addNewUser`: `set` a document whose content is the join timestamp. The
timestamp (`new Date().toISOString()`) is passed in explicitly. -/
def addNewUser (coll : Collection) (senderId joinedAt : String) : Collection :=
  docSet coll senderId joinedAt

/-- Number of documents a collection holds for a given id. -/
def countDocs (coll : Collection) (id : String) : Nat :=
  (coll.filter (fun kv => kv.1 == id)).length

/-! ## JSON values and strict parsing (modelling JS `JSON.parse`)

`handleGeminiResponse` extracts a brace-delimited substring of the model
response and feeds it to `JSON.parse`. We embed JSON values and a strict
RFC 8259 parser; numbers are kept exactly as mantissa × 10^exponent, which is
enough to decide JS truthiness. -/

inductive Json where
  | null : Json
  | bool (b : Bool) : Json
  | num (mantissa exp10 : Int) : Json
  | str (s : String) : Json
  | arr (elems : List Json) : Json
  | obj (fields : List (String × Json)) : Json

/-- The four JSON whitespace characters. -/
def isJsonWs (c : Char) : Bool := c == ' ' || c == '\t' || c == '\n' || c == '\r'

def skipWs (cs : List Char) : List Char := cs.dropWhile isJsonWs

def hexVal? (c : Char) : Option Nat :=
  if '0' ≤ c ∧ c ≤ '9' then some (c.toNat - 48)
  else if 'a' ≤ c ∧ c ≤ 'f' then some (c.toNat - 87)
  else if 'A' ≤ c ∧ c ≤ 'F' then some (c.toNat - 55)
  else none

/-- Parse the body of a JSON string (the opening quote already consumed),
returning the decoded characters and the input after the closing quote.
Unescaped control characters are rejected, escapes are decoded. -/
def parseStringBody : Nat → List Char → Option (List Char × List Char)
  | 0, _ => none
  | _, [] => none
  | Nat.succ fuel, c :: cs =>
    if c == '\x22' then some ([], cs)
    else if c == '\\' then
      match cs with
      | [] => none
      | e :: cs2 =>
        let esc? : Option (Char × List Char) :=
          if e == '\x22' then some ('\x22', cs2)
          else if e == '\\' then some ('\\', cs2)
          else if e == '/' then some ('/', cs2)
          else if e == 'b' then some ('\x08', cs2)
          else if e == 'f' then some ('\x0c', cs2)
          else if e == 'n' then some ('\n', cs2)
          else if e == 'r' then some ('\r', cs2)
          else if e == 't' then some ('\t', cs2)
          else if e == 'u' then
            match cs2 with
            | h1 :: h2 :: h3 :: h4 :: cs3 =>
              match hexVal? h1, hexVal? h2, hexVal? h3, hexVal? h4 with
              | some a, some b, some c2, some d =>
                  some (Char.ofNat (((a * 16 + b) * 16 + c2) * 16 + d), cs3)
              | _, _, _, _ => none
            | _ => none
          else none
        match esc? with
        | none => none
        | some (ch, rest) =>
            (parseStringBody fuel rest).map (fun p => (ch :: p.1, p.2))
    else if c.toNat < 32 then none
    else (parseStringBody fuel cs).map (fun p => (c :: p.1, p.2))

/-- Integer part of a JSON number: `0`, or a nonzero digit followed by digits. -/
def parseIntPart (cs : List Char) : Option (List Char × List Char) :=
  match cs with
  | '0' :: rest => some (['0'], rest)
  | c :: _ =>
      if c.isDigit then some (cs.takeWhile Char.isDigit, cs.dropWhile Char.isDigit)
      else none
  | [] => none

/-- Optional fraction part: `.` followed by one or more digits. -/
def parseFrac (cs : List Char) : Option (List Char × List Char) :=
  match cs with
  | '.' :: rest =>
      match rest.takeWhile Char.isDigit with
      | [] => none
      | ds => some (ds, rest.dropWhile Char.isDigit)
  | _ => some ([], cs)

/-- Optional exponent part: `e`/`E`, optional sign, one or more digits. -/
def parseExp (cs : List Char) : Option (Int × List Char) :=
  match cs with
  | c :: rest =>
      if c == 'e' || c == 'E' then
        let (sign, rest2) : Int × List Char :=
          match rest with
          | '+' :: r => (1, r)
          | '-' :: r => (-1, r)
          | _ => (1, rest)
        match rest2.takeWhile Char.isDigit with
        | [] => none
        | ds => some (sign * (digitsToNat ds : Int), rest2.dropWhile Char.isDigit)
      else some (0, cs)
  | [] => some (0, [])

/-- A JSON number, starting at the first character of its lexeme. -/
def parseNumber (cs : List Char) : Option (Json × List Char) := do
  let (neg, cs1) : Bool × List Char :=
    match cs with
    | '-' :: rest => (true, rest)
    | _ => (false, cs)
  let (intDigits, cs2) ← parseIntPart cs1
  let (fracDigits, cs3) ← parseFrac cs2
  let (expVal, cs4) ← parseExp cs3
  let mant : Int := (digitsToNat (intDigits ++ fracDigits) : Int)
  let mant := if neg then -mant else mant
  some (Json.num mant (expVal - fracDigits.length), cs4)

mutual

/-- A JSON value (leading whitespace allowed). -/
def parseValueF : Nat → List Char → Option (Json × List Char)
  | 0, _ => none
  | Nat.succ fuel, cs =>
    match skipWs cs with
    | [] => none
    | c :: rest =>
      if c == 'n' then
        match rest with
        | 'u' :: 'l' :: 'l' :: r => some (.null, r)
        | _ => none
      else if c == 't' then
        match rest with
        | 'r' :: 'u' :: 'e' :: r => some (.bool true, r)
        | _ => none
      else if c == 'f' then
        match rest with
        | 'a' :: 'l' :: 's' :: 'e' :: r => some (.bool false, r)
        | _ => none
      else if c == '\x22' then
        (parseStringBody (rest.length + 1) rest).map (fun p => (.str ⟨p.1⟩, p.2))
      else if c == '[' then
        (parseArrayItems fuel rest).map (fun p => (.arr p.1, p.2))
      else if c == '{' then
        (parseObjMembers fuel rest).map (fun p => (.obj p.1, p.2))
      else if c == '-' || c.isDigit then parseNumber (c :: rest)
      else none

/-- Array items, the opening `[` already consumed. -/
def parseArrayItems : Nat → List Char → Option (List Json × List Char)
  | 0, _ => none
  | Nat.succ fuel, cs =>
    match skipWs cs with
    | ']' :: r => some ([], r)
    | _ => do
      let (v, r1) ← parseValueF fuel cs
      let (vs, r2) ← parseArrayTail fuel r1
      pure (v :: vs, r2)

/-- `, value` repetitions up to the closing `]`. -/
def parseArrayTail : Nat → List Char → Option (List Json × List Char)
  | 0, _ => none
  | Nat.succ fuel, cs =>
    match skipWs cs with
    | ']' :: r => some ([], r)
    | ',' :: r => do
      let (v, r1) ← parseValueF fuel r
      let (vs, r2) ← parseArrayTail fuel r1
      pure (v :: vs, r2)
    | _ => none

/-- Object members, the opening brace already consumed. -/
def parseObjMembers : Nat → List Char → Option (List (String × Json) × List Char)
  | 0, _ => none
  | Nat.succ fuel, cs =>
    match skipWs cs with
    | '}' :: r => some ([], r)
    | _ => do
      let (kv, r1) ← parseMember fuel cs
      let (kvs, r2) ← parseObjTail fuel r1
      pure (kv :: kvs, r2)

/-- `, member` repetitions up to the closing brace. -/
def parseObjTail : Nat → List Char → Option (List (String × Json) × List Char)
  | 0, _ => none
  | Nat.succ fuel, cs =>
    match skipWs cs with
    | '}' :: r => some ([], r)
    | ',' :: r => do
      let (kv, r1) ← parseMember fuel r
      let (kvs, r2) ← parseObjTail fuel r1
      pure (kv :: kvs, r2)
    | _ => none

/-- A single `"key" : value` member. -/
def parseMember : Nat → List Char → Option ((String × Json) × List Char)
  | 0, _ => none
  | Nat.succ fuel, cs =>
    match skipWs cs with
    | '\x22' :: r => do
      let (key, r1) ← parseStringBody (r.length + 1) r
      match skipWs r1 with
      | ':' :: r2 =>
          (parseValueF fuel r2).map (fun p => ((⟨key⟩, p.1), p.2))
      | _ => none
    | _ => none

end

/-- Strict `JSON.parse`: a single JSON value with only whitespace around it. -/
def parseJson (s : String) : Option Json :=
  let cs := s.toList
  match parseValueF (2 * cs.length + 4) cs with
  | some (v, rest) => if (skipWs rest).isEmpty then some v else none
  | none => none

/-- JS property access on a parsed JSON value: objects built by `JSON.parse`
keep the last of duplicate keys; any access on a non-object yields `undefined`
(here `none`). -/
def Json.getField (j : Json) (key : String) : Option Json :=
  match j with
  | .obj fields => (fields.reverse.find? (fun kv => kv.1 == key)).map (fun kv => kv.2)
  | _ => none

/-- JS truthiness of a parsed-JSON value, with `none` standing for `undefined`:
`undefined`, `null`, `false`, `0` and `""` are falsy, everything else truthy. -/
def truthy : Option Json → Bool
  | none => false
  | some .null => false
  | some (.bool b) => b
  | some (.num m _) => m != 0
  | some (.str s) => s != ""
  | some (.arr _) => true
  | some (.obj _) => true

/-! ## Brace extraction and response classification (`handleGeminiResponse`) -/

/-- Index of the first `{` in a character list. -/
def firstBraceIdx : List Char → Option Nat
  | [] => none
  | c :: cs => if c == '{' then some 0 else (firstBraceIdx cs).map (· + 1)

/-- Index of the last `}` in a character list. -/
def lastCloseIdx : List Char → Option Nat
  | [] => none
  | c :: cs =>
    match lastCloseIdx cs with
    | some k => some (k + 1)
    | none => if c == '}' then some 0 else none

/-- The greedy regex match `responseText.match(/\{[\s\S]*\}/)`: the substring
running from the first `{` to the last `}` of the string, provided that close
brace comes after the open brace; `none` otherwise. -/
def jsonMatch (s : String) : Option String :=
  let cs := s.toList
  match firstBraceIdx cs, lastCloseIdx cs with
  | some i, some j => if i < j then some ⟨(cs.drop i).take (j - i + 1)⟩ else none
  | _, _ => none

/-- The action recognized from a Gemini response. -/
inductive GeminiAction where
  | taskCreate (parsedJson : Json)
  | taskListRequest
  | taskDeletionRequest (taskTitle : Option Json)
  | plainChat (raw : String)

/-- The classification step of `handleGeminiResponse`: extract the brace
substring, `JSON.parse` it, then test the discriminator fields in the source's
order (`isTask`, `isTaskListRequest`, `isTaskDeletionRequest`, with
`taskTitle` carried when truthy); any failure, and any valid JSON matching no
discriminator, degrades to a plain chat with the raw text. -/
def classifyGeminiResponse (responseText : String) : GeminiAction :=
  match jsonMatch responseText with
  | none => .plainChat responseText
  | some jsonString =>
    match parseJson jsonString with
    | none => .plainChat responseText
    | some parsedJson =>
      if truthy (parsedJson.getField "isTask") then .taskCreate parsedJson
      else if truthy (parsedJson.getField "isTaskListRequest") then .taskListRequest
      else if truthy (parsedJson.getField "isTaskDeletionRequest") then
        .taskDeletionRequest
          (if truthy (parsedJson.getField "taskTitle") then parsedJson.getField "taskTitle"
           else none)
      else .plainChat responseText

/-! ## Google Tasks provider model (`src/components/gtasks.ts`)

The Google Tasks HTTP API is modelled as explicit state: the authenticated
user's task lists, each with its tasks. API failures other than the behaviour
coded in `gtasks.ts` itself are outside the model. -/

structure GTask where
  id : String
  title : Option String
  notes : Option String
  due : Option String
  completed : Bool
  deriving DecidableEq

structure GTaskList where
  id : String
  title : String
  tasks : List GTask
  deriving DecidableEq

/-- One user's Google Tasks account: the ordered collection of task lists. -/
abbrev TasksState := List GTaskList

def DEDICATED_TASK_LIST_NAME : String := "GDM DevRel list"

/-- `tasks.list({ showCompleted: false, maxResults: 100 })` on one list. -/
def listActiveTasks (lst : GTaskList) : List GTask :=
  (lst.tasks.filter (fun t => !t.completed)).take 100

/-- `findDedicatedTaskListId`: `tasklists.list({ maxResults: 100 })`, then the
first list titled `GDM DevRel list`. -/
def findDedicatedTaskList (lists : TasksState) : Option GTaskList :=
  (lists.take 100).find? (fun lst => lst.title == DEDICATED_TASK_LIST_NAME)

/-- `getTasksInList`: the active tasks of the dedicated list, `[]` when the
list does not exist. -/
def getTasksInList (lists : TasksState) : List GTask :=
  match findDedicatedTaskList lists with
  | none => []
  | some lst => listActiveTasks lst

/-- `task.title || 'Untitled Task'` (JS truthiness: the empty string counts as
missing). -/
def titleOrUntitled (title : Option String) : String :=
  match title with
  | some s => if s == "" then "Untitled Task" else s
  | none => "Untitled Task"

/-- `getTaskTitles` in the authenticated, non-erroring case. -/
def getTaskTitles (lists : TasksState) : List String :=
  (getTasksInList lists).map (fun t => titleOrUntitled t.title)

/-- `getFormattedTasksString` in the authenticated, non-erroring case. -/
def getFormattedTasksString (lists : TasksState) : String :=
  let tasks := getTasksInList lists
  if tasks.isEmpty then
    "You have no tasks in your \"" ++ DEDICATED_TASK_LIST_NAME ++ "\" list."
  else
    let hasDueDate := tasks.any (fun t => t.due.getD "" != "")
    let entry := fun (idx : Nat) (t : GTask) =>
      let title := "*" ++ toString (idx + 1) ++ ". " ++ titleOrUntitled t.title ++ "*"
      let notes :=
        if t.notes.getD "" != "" then "\n  " ++ (t.notes.getD "").replace "\n\n" "\n  " else ""
      let dueDate :=
        if t.due.getD "" != "" then "\n  - Due: " ++ (⟨(t.due.getD "").toList.take 10⟩ : String) else ""
      title ++ notes ++ dueDate
    let tasksString :=
      String.intercalate "\n\n" ((tasks.enum.map (fun p => entry p.1 p.2)))
    let footer := if hasDueDate then "\n\n(Due dates are in YYYY-MM-DD format)" else ""
    "*Tasks in \"" ++ DEDICATED_TASK_LIST_NAME ++ "\":*\n\n" ++ tasksString ++ footer

/-- The `/list_task_lists` reply body: `tasklists.list({ maxResults: 25 })`,
then either the empty-message or the bulleted titles. -/
def listTaskListsMsg (lists : TasksState) : String :=
  let ls := lists.take 25
  if ls.isEmpty then "You have no Google Task lists."
  else "*Your Google Task Lists:*\n" ++ String.intercalate "\n" (ls.map (fun lst => "• " ++ lst.title))

/-- The callback `t => t.title?.trim().toLowerCase() === taskTitle.trim().toLowerCase()`
(a task with no title never matches). -/
def taskTitleMatches (t : GTask) (taskTitle : String) : Bool :=
  match t.title with
  | none => false
  | some s => jsToLower (jsTrim s) == jsToLower (jsTrim taskTitle)

/-- `tasks.delete`: remove the task with the given id from the given list. -/
def removeTask (lists : TasksState) (tasklistId taskId : String) : TasksState :=
  lists.map (fun lst =>
    if lst.id == tasklistId then { lst with tasks := lst.tasks.filter (fun t => t.id != taskId) }
    else lst)

/-- `tasklists.delete`: remove the list with the given id. -/
def removeList (lists : TasksState) (tasklistId : String) : TasksState :=
  lists.filter (fun lst => lst.id != tasklistId)

/-- `deleteGoogleTask` (authenticated): find the dedicated list, list its
active tasks (at most 100), take the **first** case-insensitive title match,
delete it; when the listing held exactly one task, also delete the dedicated
list and return the extended confirmation. Returns the reply message and the
resulting provider state. -/
def deleteGoogleTask (lists : TasksState) (taskTitle : String) : String × TasksState :=
  match findDedicatedTaskList lists with
  | none =>
      ("Task \"" ++ taskTitle ++ "\" not found, as the dedicated task list doesn\x27t exist.", lists)
  | some lst =>
      let tasksResult := listActiveTasks lst
      match tasksResult.find? (fun t => taskTitleMatches t taskTitle) with
      | none =>
          ("Task \"" ++ taskTitle ++ "\" not found in the \"" ++ DEDICATED_TASK_LIST_NAME ++ "\" list.", lists)
      | some taskToDelete =>
          if taskToDelete.id == "" then
            -- `!taskToDelete?.id` also fires on a falsy id
            ("Task \"" ++ taskTitle ++ "\" not found in the \"" ++ DEDICATED_TASK_LIST_NAME ++ "\" list.", lists)
          else
            let lists1 := removeTask lists lst.id taskToDelete.id
            if tasksResult.length == 1 then
              ("Task \"" ++ taskTitle ++ "\" deleted successfully. As it was the last one, the \"" ++
                 DEDICATED_TASK_LIST_NAME ++ "\" list was also removed.",
               removeList lists1 lst.id)
            else
              ("Task \"" ++ taskTitle ++ "\" deleted successfully.", lists1)

/-- `deleteGoogleTask` when the JS value passed as `taskTitle` is not a string
(possible because `parsedJson.taskTitle` is used unchecked): the calls to
`taskTitle.trim()` inside the `find` callback throw a `TypeError` as soon as
the callback runs once; the function's own `catch` turns that into an error
string. With no dedicated list, or no active task, the callback never runs. -/
def deleteGoogleTaskJs (lists : TasksState) (taskTitle : Json) : String × TasksState :=
  match taskTitle with
  | .str t => deleteGoogleTask lists t
  | _ =>
      match findDedicatedTaskList lists with
      | none => ("Task \"\" not found, as the dedicated task list doesn\x27t exist.", lists)
      | some lst =>
          if (listActiveTasks lst).isEmpty then
            ("Task \"\" not found in the \"" ++ DEDICATED_TASK_LIST_NAME ++ "\" list.", lists)
          else
            ("Error deleting task: taskTitle.trim is not a function", lists)

/-! ## Server state, environment and orchestrator (`src/index.ts`) -/

structure MediaEntry where
  filePath : String
  mimeType : String
  deriving DecidableEq

/-- Keyed lookup in an association list (a JS object keyed by sender id). -/
def lookup? {α : Type} (m : List (String × α)) (k : String) : Option α :=
  (m.find? (fun kv => kv.1 == k)).map (fun kv => kv.2)

/-- JS object property assignment. -/
def setKey {α : Type} (m : List (String × α)) (k : String) (v : α) : List (String × α) :=
  if m.any (fun kv => kv.1 == k) then m.map (fun kv => if kv.1 == k then (k, v) else kv)
  else m ++ [(k, v)]

/-- JS `delete obj[k]`. -/
def removeKey {α : Type} (m : List (String × α)) (k : String) : List (String × α) :=
  m.filter (fun kv => kv.1 != k)

/-- The mutable state the webhook handler reads and writes: the two
pending-state registries, the `returning-users` Firestore collection, each
user's Google Tasks account, and the staged files in the media directory. -/
structure ServerState where
  pendingMedia : List (String × MediaEntry)
  pendingDeletion : List (String × List String)
  returningUsers : Collection
  userTasks : List (String × TasksState)
  mediaFiles : List String
  deriving DecidableEq

/-- External collaborators with fixed contracts: authentication, the Gemini
model, token management, and request-scoped ambient data (today's weekday,
the current timestamp, the freshly generated download path). -/
structure Env where
  isAuthenticated : String → Bool
  aiText : String → String → Bool → String × Bool
  aiMedia : String → String → String → Bool → String × Bool
  createTask : String → Option Json → Nat → Sum String (Option String)
  clearTokens : String → Bool
  authStatus : String → String
  authErrorMessage : String → String
  serverBaseUrl : String
  todayDayOfWeek : Nat
  now : String
  downloadPath : String

def tasksOf (st : ServerState) (senderId : String) : TasksState :=
  (lookup? st.userTasks senderId).getD []

def setTasksOf (st : ServerState) (senderId : String) (ts : TasksState) : ServerState :=
  { st with userTasks := setKey st.userTasks senderId ts }

/-- `FIXED_TEXT_PROMPT_FOR_AUDIO`. -/
def FIXED_TEXT_PROMPT_FOR_AUDIO : String := "answer the question present in this audio. if there is no question, interpret what the user said and ask what the user wants to do with this information"

/-- `AUTH_MESSAGES.INITIATE_AUTH_INSTRUCTIONS` with `{authUrl}` substituted
(abbreviated fixed text). -/
def INITIATE_AUTH_INSTRUCTIONS (authUrl : String) : String :=
  "To connect your Google Tasks account, please open this link in your browser: " ++ authUrl

/-- The coarse media category `processMedia` routes on. -/
def mediaCategory (mimeType : String) : Option String :=
  if strStartsWith mimeType "audio/" then some "audio"
  else if strStartsWith mimeType "image/" then some "image"
  else if strStartsWith mimeType "video/" then some "video"
  else if mimeType ∈ [ "application/pdf", "application/msword",
      "application/vnd.openxmlformats-officedocument.wordprocessingml.document",
      "application/vnd.openxmlformats-officedocument.presentationml.presentation",
      "application/vnd.openxmlformats-officedocument.spreadsheetml.sheet" ] then some "document"
  else none

/-- The error text `_processMediaWithGemini` returns when the Gemini file
upload throws (for instance because the staged file no longer exists). -/
def mediaErrorText (category : String) : String :=
  "Sorry, I encountered an error trying to understand your " ++ category ++ ". Please try again later."

/-- `processMedia`: route by MIME category (unsupported types get the fixed
rejection without an AI call), substitute the fixed audio prompt for an empty
audio prompt, and call the Gemini media entry point. A missing staged file
makes the upload inside `gemini.ts` throw; that is caught there and turned
into the media error text. Returns the Gemini result and, when a Gemini entry
point was reached, the `(mimeType, prompt)` it was given. -/
def processMedia (env : Env) (st : ServerState) (filePath mimeType senderId prompt : String) :
    (String × Bool) × Option (String × String) :=
  let useSystemInstruction := isTaskManagementRequest prompt
  match mediaCategory mimeType with
  | none => ((UNSUPPORTED_MEDIA_TYPE, false), none)
  | some category =>
      let effectivePrompt :=
        if category == "audio" ∧ jsTrim prompt == "" then FIXED_TEXT_PROMPT_FOR_AUDIO else prompt
      if filePath ∈ st.mediaFiles then
        (env.aiMedia senderId mimeType effectivePrompt useSystemInstruction, some (mimeType, effectivePrompt))
      else
        ((mediaErrorText category, false), some (mimeType, effectivePrompt))

/-- The full `handleGeminiResponse`: classification (see
`classifyGeminiResponse`) followed by dispatch against the task provider,
producing the outgoing messages and the updated state. A `details` field that
is absent or `null` makes the creation branch throw (`.objective` of
`undefined`), which the surrounding `catch` turns into the plain-chat reply. -/
def handleGeminiResponse (env : Env) (senderId responseText : String) (googleSearchUsed : Bool)
    (st : ServerState) : List String × ServerState :=
  if responseText == "" then ([GEMINI_EMPTY_RESPONSE], st)
  else
    match classifyGeminiResponse responseText with
    | .plainChat raw => ([formatGeminiResponse raw googleSearchUsed], st)
    | .taskCreate parsedJson =>
        if !env.isAuthenticated senderId then ([TASK_CREATION_AUTH_REQUIRED], st)
        else
          match parsedJson.getField "details" with
          | none => ([formatGeminiResponse responseText googleSearchUsed], st)
          | some .null => ([formatGeminiResponse responseText googleSearchUsed], st)
          | some details =>
              let dueDelta := nextBusinessDayDelta env.todayDayOfWeek
              match env.createTask senderId (details.getField "objective") dueDelta with
              | .inl errorMessage => ([errorMessage], st)
              | .inr createdTitle => ([TASK_SUCCESS (titleOrUntitled createdTitle)], st)
    | .taskListRequest =>
        if !env.isAuthenticated senderId then ([TASK_LISTING_AUTH_REQUIRED], st)
        else ([getFormattedTasksString (tasksOf st senderId)], st)
    | .taskDeletionRequest taskTitle? =>
        if !env.isAuthenticated senderId then ([TASK_DELETION_AUTH_REQUIRED], st)
        else
          match taskTitle? with
          | some titleValue =>
              let r := deleteGoogleTaskJs (tasksOf st senderId) titleValue
              ([r.1], setTasksOf st senderId r.2)
          | none =>
              let taskTitles := getTaskTitles (tasksOf st senderId)
              if taskTitles.length > 0 then
                let numberedTasks := String.intercalate "\n"
                  (taskTitles.enum.map (fun p => toString (p.1 + 1) ++ ". " ++ p.2))
                ([DELETION_PROMPT ++ "\n\n" ++ numberedTasks],
                 { st with pendingDeletion := setKey st.pendingDeletion senderId taskTitles })
              else ([DELETION_NO_TASKS], st)

/-- `deleteGoogleTask` as called from the pending-deletion branch: the
authenticated-client lookup throws for an unconnected user and the function's
`catch` relays the error as a string. -/
def deleteTaskFor (env : Env) (st : ServerState) (senderId taskTitle : String) :
    String × ServerState :=
  if env.isAuthenticated senderId then
    let r := deleteGoogleTask (tasksOf st senderId) taskTitle
    (r.1, setTasksOf st senderId r.2)
  else ("Error deleting task: " ++ env.authErrorMessage senderId, st)

/-- Which of the five text-handling branches a turn took. -/
inductive Branch where
  | pendingMediaPrompt
  | pendingDeletionReply
  | newUser
  | command
  | aiChat
  deriving DecidableEq

/-- The observable outcome of one webhook turn: the updated state, the TwiML
messages, the branch taken by the text path, and a record of the collaborator
calls made (the text-AI call with its task-instruction flag, the media-AI call
with its mime type and prompt, and whether the command switch ran). -/
structure TurnOutput where
  state : ServerState
  messages : List String
  branch : Option Branch
  aiTextCall : Option (String × Bool)
  aiMediaCall : Option (String × String)
  commandRun : Bool

/-- The slash-command switch (over the lowercased trimmed message). -/
def runCommand (env : Env) (st : ServerState) (senderId lcMessage : String) :
    List String × ServerState :=
  let isAuth := env.isAuthenticated senderId
  if lcMessage == "/start" || lcMessage == "/help" then ([WELCOME_MESSAGE], st)
  else if lcMessage == "/connect_google_tasks" then
    if isAuth then ([ALREADY_AUTHENTICATED], st)
    else
      let authUrl := env.serverBaseUrl ++ "/auth/google/initiate?senderId=" ++ senderId
      ([INITIATE_AUTH_INSTRUCTIONS authUrl], st)
  else if lcMessage == "/disconnect_google_tasks" then
    (if env.clearTokens senderId then [DISCONNECT_SUCCESS] else [DISCONNECT_FAILURE], st)
  else if lcMessage == "/status_google_tasks" then ([env.authStatus senderId], st)
  else if lcMessage == "/list_task_lists" then
    if !isAuth then ([TASK_LISTING_AUTH_REQUIRED], st)
    else ([listTaskListsMsg (tasksOf st senderId)], st)
  else if lcMessage == "/get_tasks" then
    if !isAuth then ([TASK_LISTING_AUTH_REQUIRED], st)
    else ([getFormattedTasksString (tasksOf st senderId)], st)
  else ([INVALID_COMMAND_MESSAGE], st)

/-- The text path of `POST /webhook/twilio` for a non-empty body: the four
state checks in source order (pending media, pending deletion, new user,
slash command), then the AI-chat fallthrough. -/
def handleTextMessage (env : Env) (st : ServerState) (senderId messageBody : String) : TurnOutput :=
  let normalizedMessage := jsTrim messageBody
  match lookup? st.pendingMedia senderId with
  | some entry =>
      let st1 := { st with pendingMedia := removeKey st.pendingMedia senderId }
      let pm := processMedia env st1 entry.filePath entry.mimeType senderId normalizedMessage
      let hg := handleGeminiResponse env senderId pm.1.1 pm.1.2 st1
      let st3 := { hg.2 with mediaFiles := hg.2.mediaFiles.filter (fun f => f != entry.filePath) }
      ⟨st3, hg.1, some .pendingMediaPrompt, none, pm.2, false⟩
  | none =>
    match lookup? st.pendingDeletion senderId with
    | some taskTitles =>
        let st1 := { st with pendingDeletion := removeKey st.pendingDeletion senderId }
        match findTaskFromReply normalizedMessage taskTitles with
        | some taskToMark =>
            let r := deleteTaskFor env st1 senderId taskToMark
            ⟨r.2, [r.1], some .pendingDeletionReply, none, none, false⟩
        | none =>
            ⟨st1, [DELETION_RETRY_MESSAGE], some .pendingDeletionReply, none, none, false⟩
    | none =>
      if !isReturningUser st.returningUsers senderId then
        ⟨{ st with returningUsers := addNewUser st.returningUsers senderId env.now },
         [WELCOME_MESSAGE], some .newUser, none, none, false⟩
      else if strStartsWith normalizedMessage "/" then
        let r := runCommand env st senderId (jsToLower normalizedMessage)
        ⟨r.2, r.1, some .command, none, none, true⟩
      else
        let useSystemInstruction := isTaskManagementRequest normalizedMessage
        let ai := env.aiText senderId normalizedMessage useSystemInstruction
        let hg := handleGeminiResponse env senderId ai.1 ai.2 st
        ⟨hg.2, hg.1, some .aiChat, some (normalizedMessage, useSystemInstruction), none, false⟩

/-- The media path of `POST /webhook/twilio`: refuse multiple attachments
without downloading; otherwise download (the fresh path is supplied by the
environment), then either stash a Pending Media Entry (no text) or process
immediately (text present). The `finally` block unlinks whatever
`localMediaFilePath` still points to when the turn ends. -/
def handleMediaMessage (env : Env) (st : ServerState) (senderId : String) (numMedia : Nat)
    (mediaUrl mediaContentType body : Option String) : TurnOutput :=
  if numMedia > 1 then ⟨st, [ERROR_MULTIPLE_MEDIA], none, none, none, false⟩
  else
    match mediaUrl, mediaContentType with
    | some _, some mimeType =>
        let filePath := env.downloadPath
        let st1 := { st with mediaFiles := st.mediaFiles ++ [filePath] }
        let userTextPrompt := jsTrim (body.getD "")
        if userTextPrompt == "" then
          let st2 := { st1 with pendingMedia := setKey st1.pendingMedia senderId ⟨filePath, mimeType⟩ }
          -- `localMediaFilePath` was not cleared on this path, so the
          -- `finally` block unlinks the file before replying.
          let st3 := { st2 with mediaFiles := st2.mediaFiles.filter (fun f => f != filePath) }
          ⟨st3, [PROMPT_FOR_MEDIA], none, none, none, false⟩
        else
          let pm := processMedia env st1 filePath mimeType senderId userTextPrompt
          let hg := handleGeminiResponse env senderId pm.1.1 pm.1.2 st1
          let st3 := { hg.2 with mediaFiles := hg.2.mediaFiles.filter (fun f => f != filePath) }
          ⟨st3, hg.1, none, none, pm.2, false⟩
    | _, _ =>
        -- missing MediaUrl0 / MediaContentType0: throw, caught, fixed reply
        ⟨st, [ERROR_RECEIVING_MEDIA], none, none, none, false⟩

/-- The whole webhook: reject a missing sender id (HTTP 400, `none`), route
media-bearing requests to the media path, empty bodies to the fixed reply,
and everything else to the text path. -/
def handleWebhook (env : Env) (st : ServerState) (senderId : Option String) (numMedia : Nat)
    (mediaUrl mediaContentType body : Option String) : Option TurnOutput :=
  match senderId with
  | none => none
  | some sid =>
      if numMedia > 0 then some (handleMediaMessage env st sid numMedia mediaUrl mediaContentType body)
      else
        match body with
        | none => some ⟨st, [EMPTY_MESSAGE_BODY], none, none, none, false⟩
        | some b =>
            if b == "" then some ⟨st, [EMPTY_MESSAGE_BODY], none, none, none, false⟩
            else some (handleTextMessage env st sid b)

/-! ## Concrete sample data used to exercise the model -/

/-- A sample sender id. -/
def exSender : String := "whatsapp:+15550001111"

/-- A sample collaborator environment: authenticated user, fixed AI replies,
a Friday (`getDay() = 5`). -/
def exEnv : Env where
  isAuthenticated := fun _ => true
  aiText := fun _ _ _ => ("hello!", false)
  aiMedia := fun _ _ _ _ => ("a photo of a whiteboard", false)
  createTask := fun _ _ _ => Sum.inr (some "Buy milk")
  clearTokens := fun _ => true
  authStatus := fun _ => "Connected."
  authErrorMessage := fun _ => "User not authenticated. Please connect your Google account."
  serverBaseUrl := "https://voicetasks.example.com"
  todayDayOfWeek := 5
  now := "2026-10-12T09:00:00.000Z"
  downloadPath := "/tmp/media/whatsapp:+15550001111-1760000000000.jpeg"

/-- A dedicated task list holding two active tasks whose titles coincide
case-insensitively. -/
def exDupList : GTaskList :=
  { id := "list-1", title := DEDICATED_TASK_LIST_NAME,
    tasks := [ { id := "task-1", title := some "Buy milk", notes := none, due := none, completed := false },
               { id := "task-2", title := some "buy MILK", notes := none, due := none, completed := false } ] }

/-- A dedicated task list holding exactly one active task. -/
def exSoloList : GTaskList :=
  { id := "list-9", title := DEDICATED_TASK_LIST_NAME,
    tasks := [ { id := "task-9", title := some "Call Alice", notes := none, due := none, completed := false } ] }

/-- A server state in which the sample sender is already registered and owns
the duplicate-titled list. -/
def exStateDup : ServerState :=
  { pendingMedia := [], pendingDeletion := [],
    returningUsers := [(exSender, "2026-01-01T00:00:00.000Z")],
    userTasks := [(exSender, [exDupList])], mediaFiles := [] }

/-- A registered sender with no pending state and no tasks. -/
def exStatePlain : ServerState :=
  { pendingMedia := [], pendingDeletion := [],
    returningUsers := [(exSender, "2026-01-01T00:00:00.000Z")],
    userTasks := [], mediaFiles := [] }

/-- A registered sender holding a Pending Deletion Entry for two titles. -/
def exStatePendingDel : ServerState :=
  { pendingMedia := [], pendingDeletion := [(exSender, ["Buy milk", "Call Alice"])],
    returningUsers := [(exSender, "2026-01-01T00:00:00.000Z")],
    userTasks := [(exSender, [exDupList])], mediaFiles := [] }

/-- A Gemini reply wrapping a deletion-request JSON object in prose. -/
def exC4Response : String :=
  "Sure thing! \x7b\x22isTaskDeletionRequest\x22: true, \x22taskTitle\x22: \x22Buy milk\x22\x7d Done."

/-- The brace substring `jsonMatch` extracts from `exC4Response`. -/
def exC4Sub : String :=
  "\x7b\x22isTaskDeletionRequest\x22: true, \x22taskTitle\x22: \x22Buy milk\x22\x7d"

/-- The parse of `exC4Sub`. -/
def exC4Json : Json :=
  .obj [("isTaskDeletionRequest", .bool true), ("taskTitle", .str "Buy milk")]

/-! ## Helper lemmas -/

theorem isReturningUser_docSet (coll : Collection) (id data : String) :
    isReturningUser (docSet coll id data) id = true := by
  unfold isReturningUser docSet
  by_cases h : coll.any (fun kv => kv.1 == id)
  · rw [if_pos h]
    obtain ⟨kv, hmem, hkv⟩ := List.any_eq_true.mp h
    rw [List.any_eq_true]
    exact ⟨(id, data), List.mem_map.mpr ⟨kv, hmem, by simp [hkv]⟩, by simp⟩
  · rw [if_neg h, List.any_eq_true]
    exact ⟨(id, data), by simp⟩

theorem keys_docSet (coll : Collection) (id data : String) :
    (docSet coll id data).map Prod.fst =
      if coll.any (fun kv => kv.1 == id) then coll.map Prod.fst
      else coll.map Prod.fst ++ [id] := by
  unfold docSet
  by_cases h : coll.any (fun kv => kv.1 == id)
  · rw [if_pos h, if_pos h, List.map_map]
    apply List.map_congr_left
    intro kv _
    by_cases hk : kv.1 = id
    · simp [Function.comp, hk]
    · simp [Function.comp, hk]
  · rw [if_neg h, if_neg h]
    simp

theorem countDocs_docSet (coll : Collection) (id data : String)
    (hnd : (coll.map Prod.fst).Nodup) :
    countDocs (docSet coll id data) id = 1 := by
  unfold countDocs docSet
  by_cases h : coll.any (fun kv => kv.1 == id)
  · rw [if_pos h, List.filter_map, List.length_map]
    have hcong : coll.filter ((fun kv : String × String => kv.1 == id) ∘
        (fun kv => if kv.1 == id then (id, data) else kv)) =
        coll.filter (fun kv => kv.1 == id) := by
      apply List.filter_congr
      intro kv _
      by_cases hk : kv.1 == id
      · simp [Function.comp, hk]
      · simp [Function.comp, hk]
    rw [hcong]
    have hcount : (coll.filter (fun kv => kv.1 == id)).length = (coll.map Prod.fst).count id := by
      rw [List.count_eq_countP, List.countP_map, List.countP_eq_length_filter]
      rfl
    have hmem : id ∈ coll.map Prod.fst := by
      obtain ⟨kv, hmemkv, hkv⟩ := List.any_eq_true.mp h
      exact List.mem_map.mpr ⟨kv, hmemkv, beq_iff_eq.mp hkv⟩
    have h1 : 1 ≤ (coll.map Prod.fst).count id := List.count_pos_iff.mpr hmem
    have h2 : (coll.map Prod.fst).count id ≤ 1 := List.nodup_iff_count_le_one.mp hnd id
    omega
  · rw [if_neg h, List.filter_append]
    have hfalse := List.any_eq_false.mp (Bool.eq_false_iff.mpr h)
    have hfe : coll.filter (fun kv => kv.1 == id) = [] := by
      rw [List.filter_eq_nil_iff]
      exact hfalse
    simp [hfe]

theorem nodup_keys_docSet (coll : Collection) (id data : String)
    (hnd : (coll.map Prod.fst).Nodup) :
    ((docSet coll id data).map Prod.fst).Nodup := by
  rw [keys_docSet]
  by_cases h : coll.any (fun kv => kv.1 == id)
  · rw [if_pos h]; exact hnd
  · rw [if_neg h]
    have hfalse := List.any_eq_false.mp (Bool.eq_false_iff.mpr h)
    refine List.Nodup.append hnd (List.nodup_singleton id) ?_
    intro a hmem hsing
    rw [List.mem_singleton] at hsing
    subst hsing
    obtain ⟨kv, hkv, hfst⟩ := List.mem_map.mp hmem
    exact hfalse kv hkv (beq_iff_eq.mpr hfst)

theorem lookup?_removeKey_self {α : Type} (m : List (String × α)) (k : String) :
    lookup? (removeKey m k) k = none := by
  unfold lookup? removeKey
  have : (m.filter (fun kv => kv.1 != k)).find? (fun kv => kv.1 == k) = none := by
    rw [List.find?_eq_none]
    intro kv hkv
    have := List.of_mem_filter hkv
    simp_all
  simp [this]

theorem firstBraceIdx_char {cs : List Char} {i : Nat} (h : firstBraceIdx cs = some i) :
    cs.get? i = some '{' := by
  induction cs generalizing i with
  | nil => simp [firstBraceIdx] at h
  | cons c cs ih =>
    simp only [firstBraceIdx] at h
    by_cases hc : c == '{'
    · rw [if_pos hc] at h
      obtain rfl : (0 : Nat) = i := by simpa using h
      simp [beq_iff_eq.mp hc]
    · rw [if_neg hc] at h
      obtain ⟨i0, h0, rfl⟩ := Option.map_eq_some'.mp h
      simpa using ih h0

theorem lastCloseIdx_char {cs : List Char} {j : Nat} (h : lastCloseIdx cs = some j) :
    cs.get? j = some '}' := by
  induction cs generalizing j with
  | nil => simp [lastCloseIdx] at h
  | cons c cs ih =>
    simp only [lastCloseIdx] at h
    cases hrec : lastCloseIdx cs with
    | some k =>
        rw [hrec] at h
        obtain rfl : k + 1 = j := by simpa using h
        simpa using ih hrec
    | none =>
        rw [hrec] at h
        by_cases hc : c == '}'
        · rw [if_pos hc] at h
          obtain rfl : (0 : Nat) = j := by simpa using h
          simp [beq_iff_eq.mp hc]
        · rw [if_neg hc] at h
          exact absurd h (by simp)

/-! ## Claim theorems -/

/-- **C3**: the due-date computation in `handleGeminiResponse` adds one day on
Monday–Thursday, three on Friday, two on Saturday and one on Sunday, so the
due date always falls on a Monday–Friday strictly after today
(`getDay()`: Sunday = 0 … Saturday = 6; days 1–5 are Monday–Friday). -/
theorem nextBusinessDay_correct (d : Nat) (hd : d < 7) :
    (1 ≤ d ∧ d ≤ 4 → nextBusinessDayDelta d = 1) ∧
    (d = 5 → nextBusinessDayDelta d = 3) ∧
    (d = 6 → nextBusinessDayDelta d = 2) ∧
    (d = 0 → nextBusinessDayDelta d = 1) ∧
    1 ≤ nextBusinessDayDelta d ∧
    1 ≤ (d + nextBusinessDayDelta d) % 7 ∧ (d + nextBusinessDayDelta d) % 7 ≤ 5 := by
  interval_cases d <;> simp [nextBusinessDayDelta]

/-- Witness for the C3 theorem at Friday (`getDay() = 5`): the delta is three
days and the due date lands on a Monday. -/
theorem nextBusinessDay_correct_witness :
    nextBusinessDayDelta 5 = 3 ∧ (5 + nextBusinessDayDelta 5) % 7 = 1 := by
  have h := nextBusinessDay_correct 5 (by decide)
  exact ⟨h.2.1 rfl, by decide⟩

/-- **C5**: deletion-reply matching returns a title whose trimmed lowercase
form equals the trimmed lowercase reply when one exists; otherwise the first
digit run of the reply, read as a 1-based index, selects that position exactly
when it is within bounds; otherwise nothing matches — including the four
examples from the specification. -/
theorem findTaskFromReply_correct (reply : String) (taskTitles : List String) :
    ((∃ t ∈ taskTitles, jsToLower (jsTrim t) = jsToLower (jsTrim reply)) →
      ∃ t, findTaskFromReply reply taskTitles = some t ∧
        jsToLower (jsTrim t) = jsToLower (jsTrim reply)) ∧
    ((∀ t ∈ taskTitles, jsToLower (jsTrim t) ≠ jsToLower (jsTrim reply)) →
      (∀ ds, firstDigitRun (jsToLower (jsTrim reply)) = some ds →
        (1 ≤ digitsToNat ds ∧ digitsToNat ds ≤ taskTitles.length →
          findTaskFromReply reply taskTitles = taskTitles.get? (digitsToNat ds - 1) ∧
          (taskTitles.get? (digitsToNat ds - 1)).isSome = true) ∧
        (¬(1 ≤ digitsToNat ds ∧ digitsToNat ds ≤ taskTitles.length) →
          findTaskFromReply reply taskTitles = none)) ∧
      (firstDigitRun (jsToLower (jsTrim reply)) = none →
        findTaskFromReply reply taskTitles = none)) ∧
    findTaskFromReply "2" ["Buy milk", "Call Alice"] = some "Call Alice" ∧
    findTaskFromReply "buy MILK" ["Buy milk", "Call Alice"] = some "Buy milk" ∧
    findTaskFromReply "5" ["Buy milk", "Call Alice"] = none ∧
    findTaskFromReply "xyz" ["Buy milk", "Call Alice"] = none := by
  refine ⟨?_, ?_, by decide, by decide, by decide, by decide⟩
  · rintro ⟨t, ht, heq⟩
    have hsome : (taskTitles.find?
        (fun title => jsToLower (jsTrim title) == jsToLower (jsTrim reply))).isSome := by
      rw [List.find?_isSome]
      exact ⟨t, ht, by simpa using heq⟩
    obtain ⟨u, hu⟩ := Option.isSome_iff_exists.mp hsome
    refine ⟨u, ?_, ?_⟩
    · simp only [findTaskFromReply, hu]
    · simpa using List.find?_some hu
  · intro hnone
    have hfindnone : taskTitles.find?
        (fun title => jsToLower (jsTrim title) == jsToLower (jsTrim reply)) = none := by
      rw [List.find?_eq_none]
      intro t ht
      simpa using hnone t ht
    refine ⟨?_, ?_⟩
    · intro ds hds
      constructor
      · rintro ⟨h1, h2⟩
        have hb : digitsToNat ds - 1 < taskTitles.length := by omega
        have hpos : digitsToNat ds > 0 ∧ digitsToNat ds ≤ taskTitles.length := by omega
        constructor
        · simp only [findTaskFromReply, hfindnone, hds]
          rw [if_pos hpos]
        · rw [List.get?_eq_get hb]
          rfl
      · intro hnot
        have hnot' : ¬(digitsToNat ds > 0 ∧ digitsToNat ds ≤ taskTitles.length) := by omega
        simp only [findTaskFromReply, hfindnone, hds]
        rw [if_neg hnot']
    · intro hnodigit
      simp only [findTaskFromReply, hfindnone, hnodigit]

/-- Witness for the C5 theorem: for the presented list of the specification,
the exact-match clause fires on the reply `"buy MILK"`. -/
theorem findTaskFromReply_correct_witness :
    ∃ t, findTaskFromReply "buy MILK" ["Buy milk", "Call Alice"] = some t ∧
      jsToLower (jsTrim t) = jsToLower (jsTrim "buy MILK") :=
  (findTaskFromReply_correct "buy MILK" ["Buy milk", "Call Alice"]).1
    ⟨"Buy milk", by decide, by decide⟩

/-- **C8**: the User Registry add operation is idempotent — after adding the
same sender twice (with whatever timestamps the two calls computed), the
sender is a member, the collection holds exactly one document for that id,
the same was already true after the first call, and the second call changes
no document id (and, being a total function, cannot fail). -/
theorem addNewUser_idempotent (coll : Collection) (senderId t1 t2 : String)
    (hnd : (coll.map Prod.fst).Nodup) :
    isReturningUser (addNewUser (addNewUser coll senderId t1) senderId t2) senderId = true ∧
    countDocs (addNewUser (addNewUser coll senderId t1) senderId t2) senderId = 1 ∧
    countDocs (addNewUser coll senderId t1) senderId = 1 ∧
    (addNewUser (addNewUser coll senderId t1) senderId t2).map Prod.fst =
      (addNewUser coll senderId t1).map Prod.fst := by
  have hnd1 : ((addNewUser coll senderId t1).map Prod.fst).Nodup :=
    nodup_keys_docSet coll senderId t1 hnd
  have hmem1 : isReturningUser (addNewUser coll senderId t1) senderId = true :=
    isReturningUser_docSet coll senderId t1
  refine ⟨isReturningUser_docSet _ senderId t2,
    countDocs_docSet _ senderId t2 hnd1,
    countDocs_docSet coll senderId t1 hnd, ?_⟩
  have hany1 : ((addNewUser coll senderId t1).any (fun kv => kv.1 == senderId)) = true := hmem1
  have hkeys := keys_docSet (addNewUser coll senderId t1) senderId t2
  simp only [hany1, if_true] at hkeys
  exact hkeys

/-- Witness for the C8 theorem on a concrete registry. -/
theorem addNewUser_idempotent_witness :
    countDocs (addNewUser (addNewUser [("u1", "2026-01-01")] exSender "2026-10-12T09:00:00Z")
      exSender "2026-10-12T09:05:00Z") exSender = 1 :=
  (addNewUser_idempotent [("u1", "2026-01-01")] exSender "2026-10-12T09:00:00Z"
    "2026-10-12T09:05:00Z" (by decide)).2.1

/-- **C4**: the classifier extracts the substring from the first open brace to
the last close brace and strictly parses it; when no such brace pair exists,
or the parse fails, the turn is plain chat with the raw text (the classifier
is a total function, so no exception escapes); on success the discriminators
are tested in the fixed order `isTask`, `isTaskListRequest`,
`isTaskDeletionRequest` (carrying the `taskTitle` string when present and
non-empty, `none` when absent or null), and valid JSON matching none of them
degrades to plain chat with the raw text. -/
theorem classifyGeminiResponse_correct (s : String) :
    ((¬ ∃ i j, i < j ∧ s.toList.get? i = some '{' ∧ s.toList.get? j = some '}') →
      classifyGeminiResponse s = .plainChat s) ∧
    (∀ sub, jsonMatch s = some sub → parseJson sub = none →
      classifyGeminiResponse s = .plainChat s) ∧
    (∀ sub pj, jsonMatch s = some sub → parseJson sub = some pj →
      (truthy (pj.getField "isTask") = true →
        classifyGeminiResponse s = .taskCreate pj) ∧
      (truthy (pj.getField "isTask") = false →
        truthy (pj.getField "isTaskListRequest") = true →
        classifyGeminiResponse s = .taskListRequest) ∧
      (truthy (pj.getField "isTask") = false →
        truthy (pj.getField "isTaskListRequest") = false →
        truthy (pj.getField "isTaskDeletionRequest") = true →
        (∀ t, pj.getField "taskTitle" = some (.str t) → t ≠ "" →
          classifyGeminiResponse s = .taskDeletionRequest (some (.str t))) ∧
        ((pj.getField "taskTitle" = none ∨ pj.getField "taskTitle" = some .null) →
          classifyGeminiResponse s = .taskDeletionRequest none)) ∧
      (truthy (pj.getField "isTask") = false →
        truthy (pj.getField "isTaskListRequest") = false →
        truthy (pj.getField "isTaskDeletionRequest") = false →
        classifyGeminiResponse s = .plainChat s)) := by
  refine ⟨?_, ?_, ?_⟩
  · intro hno
    have hm : jsonMatch s = none := by
      cases hfb : firstBraceIdx s.data with
      | none => simp [jsonMatch, hfb]
      | some i =>
        cases hlc : lastCloseIdx s.data with
        | none => simp [jsonMatch, hfb, hlc]
        | some j =>
          by_cases hij : i < j
          · exact absurd ⟨i, j, hij, firstBraceIdx_char hfb, lastCloseIdx_char hlc⟩ hno
          · simp [jsonMatch, hfb, hlc, hij]
    simp [classifyGeminiResponse, hm]
  · intro sub hsub hparse
    simp [classifyGeminiResponse, hsub, hparse]
  · intro sub pj hsub hparse
    refine ⟨?_, ?_, ?_, ?_⟩
    · intro h1
      simp [classifyGeminiResponse, hsub, hparse, h1]
    · intro h1 h2
      simp [classifyGeminiResponse, hsub, hparse, h1, h2]
    · intro h1 h2 h3
      constructor
      · intro t ht htne
        have htt : truthy (some (Json.str t)) = true := by
          simp [truthy, htne]
        simp [classifyGeminiResponse, hsub, hparse, h1, h2, h3, ht, htt]
      · intro hnull
        have htt : truthy (pj.getField "taskTitle") = false := by
          rcases hnull with h | h <;> rw [h] <;> rfl
        simp [classifyGeminiResponse, hsub, hparse, h1, h2, h3, htt]
    · intro h1 h2 h3
      simp [classifyGeminiResponse, hsub, hparse, h1, h2, h3]

/-- Witness for the C4 theorem: a deletion-request JSON object wrapped in
prose classifies to the deletion action carrying its title. -/
theorem classifyGeminiResponse_correct_witness :
    classifyGeminiResponse exC4Response = .taskDeletionRequest (some (.str "Buy milk")) := by
  have h := classifyGeminiResponse_correct exC4Response
  exact (((h.2.2 exC4Sub exC4Json rfl rfl).2.2.1 rfl rfl rfl).1 "Buy milk" rfl (by decide))

/-- **C2 counterexample**: with two active tasks in the dedicated list whose
titles coincide case-insensitively, `deleteGoogleTask` does not refuse and
ask for disambiguation as the claim states: it deletes the first match and
returns the plain success confirmation, leaving the duplicate behind. -/
theorem deleteGoogleTask_counterexample :
    2 ≤ ((listActiveTasks exDupList).filter (fun t => taskTitleMatches t "buy milk")).length ∧
    deleteGoogleTask [exDupList] "buy milk" =
      ("Task \"buy milk\" deleted successfully.",
       [{ id := "list-1", title := DEDICATED_TASK_LIST_NAME,
          tasks := [{ id := "task-2", title := some "buy MILK", notes := none, due := none,
                      completed := false }] }]) := by
  exact ⟨by decide, by decide⟩

/-- **C2 (amended)**: for every authenticated delete-by-title request, when
the dedicated list is missing, or no active task matches the title
case-insensitively, a not-found message is returned and nothing changes;
otherwise the **first** matching task in list order is deleted — even when
several tasks share the title, with no disambiguation — and the deletion is
confirmed. -/
theorem deleteGoogleTask_correct (lists : TasksState) (taskTitle : String) :
    (findDedicatedTaskList lists = none →
      deleteGoogleTask lists taskTitle =
        ("Task \"" ++ taskTitle ++ "\" not found, as the dedicated task list doesn\x27t exist.",
         lists)) ∧
    (∀ lst, findDedicatedTaskList lists = some lst →
      ((listActiveTasks lst).find? (fun t => taskTitleMatches t taskTitle) = none →
        deleteGoogleTask lists taskTitle =
          ("Task \"" ++ taskTitle ++ "\" not found in the \"" ++ DEDICATED_TASK_LIST_NAME ++
            "\" list.", lists)) ∧
      (∀ td, (listActiveTasks lst).find? (fun t => taskTitleMatches t taskTitle) = some td →
        td.id ≠ "" →
        taskTitleMatches td taskTitle = true ∧
        ((listActiveTasks lst).length ≠ 1 →
          deleteGoogleTask lists taskTitle =
            ("Task \"" ++ taskTitle ++ "\" deleted successfully.",
             removeTask lists lst.id td.id)) ∧
        ((listActiveTasks lst).length = 1 →
          deleteGoogleTask lists taskTitle =
            ("Task \"" ++ taskTitle ++ "\" deleted successfully. As it was the last one, the \"" ++
               DEDICATED_TASK_LIST_NAME ++ "\" list was also removed.",
             removeList (removeTask lists lst.id td.id) lst.id)))) := by
  refine ⟨?_, ?_⟩
  · intro hnone
    simp [deleteGoogleTask, hnone]
  · intro lst hlst
    constructor
    · intro hfind
      simp [deleteGoogleTask, hlst, hfind]
    · intro td hfind hid
      refine ⟨by simpa using List.find?_some hfind, ?_, ?_⟩
      · intro hlen
        simp [deleteGoogleTask, hlst, hfind, hid, hlen]
      · intro hlen
        simp [deleteGoogleTask, hlst, hfind, hid, hlen]

/-- Witness for the amended C2 theorem at the duplicate-titled list: the first
match is deleted and the plain confirmation returned. -/
theorem deleteGoogleTask_correct_witness :
    deleteGoogleTask [exDupList] "buy milk" =
      ("Task \"buy milk\" deleted successfully.",
       removeTask [exDupList] exDupList.id "task-1") := by
  have h := (deleteGoogleTask_correct [exDupList] "buy milk").2 exDupList (by decide)
  exact (h.2 ⟨"task-1", some "Buy milk", none, none, false⟩ (by decide) (by decide)).2.1
    (by decide)

/-- **C10**: when delete-by-title succeeds and the listing that located the
task held exactly one task, the dedicated task list itself is deleted too and
the confirmation message extends — hence differs from — the ordinary success
message by stating that the list was removed. -/
theorem deleteGoogleTask_last_task (lists : TasksState) (taskTitle : String)
    (lst : GTaskList) (hlst : findDedicatedTaskList lists = some lst)
    (td : GTask)
    (hfind : (listActiveTasks lst).find? (fun t => taskTitleMatches t taskTitle) = some td)
    (hid : td.id ≠ "") (hlen : (listActiveTasks lst).length = 1) :
    deleteGoogleTask lists taskTitle =
      ("Task \"" ++ taskTitle ++ "\" deleted successfully. As it was the last one, the \"" ++
         DEDICATED_TASK_LIST_NAME ++ "\" list was also removed.",
       removeList (removeTask lists lst.id td.id) lst.id) ∧
    (∀ l ∈ (deleteGoogleTask lists taskTitle).2, l.id ≠ lst.id) ∧
    (deleteGoogleTask lists taskTitle).1 ≠
      "Task \"" ++ taskTitle ++ "\" deleted successfully." := by
  have heq : deleteGoogleTask lists taskTitle =
      ("Task \"" ++ taskTitle ++ "\" deleted successfully. As it was the last one, the \"" ++
         DEDICATED_TASK_LIST_NAME ++ "\" list was also removed.",
       removeList (removeTask lists lst.id td.id) lst.id) := by
    simp [deleteGoogleTask, hlst, hfind, hid, hlen]
  refine ⟨heq, ?_, ?_⟩
  · intro l hl
    rw [heq] at hl
    have := List.of_mem_filter hl
    simpa using this
  · rw [heq]
    intro habs
    have hl := congrArg String.length habs
    simp only [String.length_append] at hl
    have hne : ("\" deleted successfully. As it was the last one, the \"" : String).length +
        (DEDICATED_TASK_LIST_NAME).length + ("\" list was also removed." : String).length ≠
        ("\" deleted successfully." : String).length := by decide
    omega

/-- Witness for the C10 theorem: deleting the only task of the dedicated list
removes the list and returns the extended confirmation. -/
theorem deleteGoogleTask_last_task_witness :
    deleteGoogleTask [exSoloList] "call alice" =
      ("Task \"call alice\" deleted successfully. As it was the last one, the \"" ++
         DEDICATED_TASK_LIST_NAME ++ "\" list was also removed.",
       removeList (removeTask [exSoloList] exSoloList.id "task-9") exSoloList.id) :=
  (deleteGoogleTask_last_task [exSoloList] "call alice" exSoloList (by decide)
    ⟨"task-9", some "Call Alice", none, none, false⟩
    (by decide) (by decide) (by decide)).1

/-- **C1** (the code contradicts this claim): for a single media message of a
supported MIME type with no accompanying text, the handler does store the
Pending Media Entry for the sender and reply with the prompt-for-media
message, but the `finally` block of the media branch unlinks the downloaded
file during that same turn (the staged-file store ends the turn empty), so
the deferred prompt from the same sender later fails to process the file and
the turn degrades to the media error text. -/
theorem pendingMedia_file_deleted_same_turn :
    lookup? (handleMediaMessage exEnv exStatePlain exSender 1
        (some "https://api.twilio.com/media/0") (some "image/jpeg") (some "")).state.pendingMedia
      exSender = some ⟨exEnv.downloadPath, "image/jpeg"⟩ ∧
    (handleMediaMessage exEnv exStatePlain exSender 1
        (some "https://api.twilio.com/media/0") (some "image/jpeg") (some "")).messages =
      [PROMPT_FOR_MEDIA] ∧
    (handleMediaMessage exEnv exStatePlain exSender 1
        (some "https://api.twilio.com/media/0") (some "image/jpeg") (some "")).state.mediaFiles =
      [] ∧
    (handleTextMessage exEnv
        (handleMediaMessage exEnv exStatePlain exSender 1
          (some "https://api.twilio.com/media/0") (some "image/jpeg") (some "")).state
        exSender "what is in this picture?").messages =
      [formatGeminiResponse (mediaErrorText "image") false] := by
  decide

/-- **C6**: for every incoming non-empty text message exactly one of the five
handling branches runs, selected in the fixed priority order pending media,
pending deletion, new user, slash command, AI chat — the command branch never
calls the AI, and the AI branch passes the task-relevance gate's flag along
with the trimmed message. -/
theorem textBranch_priority (env : Env) (st : ServerState) (senderId messageBody : String) :
    (∀ entry, lookup? st.pendingMedia senderId = some entry →
      (handleTextMessage env st senderId messageBody).branch = some .pendingMediaPrompt ∧
      (handleTextMessage env st senderId messageBody).commandRun = false ∧
      (handleTextMessage env st senderId messageBody).aiTextCall = none) ∧
    (lookup? st.pendingMedia senderId = none →
      ∀ taskTitles, lookup? st.pendingDeletion senderId = some taskTitles →
      (handleTextMessage env st senderId messageBody).branch = some .pendingDeletionReply ∧
      (handleTextMessage env st senderId messageBody).commandRun = false ∧
      (handleTextMessage env st senderId messageBody).aiTextCall = none ∧
      (handleTextMessage env st senderId messageBody).aiMediaCall = none) ∧
    (lookup? st.pendingMedia senderId = none →
      lookup? st.pendingDeletion senderId = none →
      isReturningUser st.returningUsers senderId = false →
      (handleTextMessage env st senderId messageBody).branch = some .newUser ∧
      (handleTextMessage env st senderId messageBody).commandRun = false ∧
      (handleTextMessage env st senderId messageBody).aiTextCall = none ∧
      (handleTextMessage env st senderId messageBody).aiMediaCall = none) ∧
    (lookup? st.pendingMedia senderId = none →
      lookup? st.pendingDeletion senderId = none →
      isReturningUser st.returningUsers senderId = true →
      strStartsWith (jsTrim messageBody) "/" = true →
      (handleTextMessage env st senderId messageBody).branch = some .command ∧
      (handleTextMessage env st senderId messageBody).commandRun = true ∧
      (handleTextMessage env st senderId messageBody).aiTextCall = none ∧
      (handleTextMessage env st senderId messageBody).aiMediaCall = none) ∧
    (lookup? st.pendingMedia senderId = none →
      lookup? st.pendingDeletion senderId = none →
      isReturningUser st.returningUsers senderId = true →
      strStartsWith (jsTrim messageBody) "/" = false →
      (handleTextMessage env st senderId messageBody).branch = some .aiChat ∧
      (handleTextMessage env st senderId messageBody).commandRun = false ∧
      (handleTextMessage env st senderId messageBody).aiTextCall =
        some (jsTrim messageBody, isTaskManagementRequest (jsTrim messageBody))) := by
  refine ⟨?_, ?_, ?_, ?_, ?_⟩
  · intro entry hpm
    simp [handleTextMessage, hpm]
  · intro hpm taskTitles hpd
    cases hfind : findTaskFromReply (jsTrim messageBody) taskTitles with
    | some t => simp [handleTextMessage, hpm, hpd, hfind]
    | none => simp [handleTextMessage, hpm, hpd, hfind]
  · intro hpm hpd hnew
    simp [handleTextMessage, hpm, hpd, hnew]
  · intro hpm hpd hret hcmd
    simp [handleTextMessage, hpm, hpd, hret, hcmd]
  · intro hpm hpd hret hcmd
    simp [handleTextMessage, hpm, hpd, hret, hcmd]

/-- Witness for the C6 theorem: a registered sender with no pending state who
sends `/help` lands in the command branch, with no AI call. -/
theorem textBranch_priority_witness :
    (handleTextMessage exEnv exStatePlain exSender "/help").branch = some .command ∧
    (handleTextMessage exEnv exStatePlain exSender "/help").commandRun = true ∧
    (handleTextMessage exEnv exStatePlain exSender "/help").aiTextCall = none ∧
    (handleTextMessage exEnv exStatePlain exSender "/help").aiMediaCall = none :=
  (textBranch_priority exEnv exStatePlain exSender "/help").2.2.2.1
    (by decide) (by decide) (by decide) (by decide)

/-- **C7**: a sender absent from the User Registry (with no pending media and
no pending deletion state) gets exactly the welcome message, is registered
during the turn, and triggers neither an AI call nor command handling. -/
theorem newUser_welcome (env : Env) (st : ServerState) (senderId messageBody : String)
    (hpm : lookup? st.pendingMedia senderId = none)
    (hpd : lookup? st.pendingDeletion senderId = none)
    (hnew : isReturningUser st.returningUsers senderId = false) :
    (handleTextMessage env st senderId messageBody).messages = [WELCOME_MESSAGE] ∧
    isReturningUser (handleTextMessage env st senderId messageBody).state.returningUsers
      senderId = true ∧
    (handleTextMessage env st senderId messageBody).aiTextCall = none ∧
    (handleTextMessage env st senderId messageBody).aiMediaCall = none ∧
    (handleTextMessage env st senderId messageBody).commandRun = false := by
  refine ⟨?_, ?_, ?_, ?_, ?_⟩ <;>
    simp [handleTextMessage, hpm, hpd, hnew, addNewUser, isReturningUser_docSet]

/-- Witness for the C7 theorem: the very first message of a fresh sender on an
empty server state. -/
theorem newUser_welcome_witness :
    (handleTextMessage exEnv ⟨[], [], [], [], []⟩ exSender "hi").messages = [WELCOME_MESSAGE] ∧
    isReturningUser (handleTextMessage exEnv ⟨[], [], [], [], []⟩ exSender "hi").state.returningUsers
      exSender = true :=
  ⟨(newUser_welcome exEnv ⟨[], [], [], [], []⟩ exSender "hi" (by decide) (by decide) (by decide)).1,
   (newUser_welcome exEnv ⟨[], [], [], [], []⟩ exSender "hi" (by decide) (by decide)
     (by decide)).2.1⟩

/-- **C9**: in a text turn of a sender holding a Pending Deletion Entry, the
entry is consumed unconditionally: after the turn no Pending Deletion Entry
remains for the sender, whether the reply matched a stored title (the delete
call runs and its message is the reply) or not (the fixed restart message is
the reply) — a failed match cannot retry against the same stored list. -/
theorem pendingDeletion_consumed (env : Env) (st : ServerState) (senderId messageBody : String)
    (taskTitles : List String)
    (hpm : lookup? st.pendingMedia senderId = none)
    (hpd : lookup? st.pendingDeletion senderId = some taskTitles) :
    lookup? (handleTextMessage env st senderId messageBody).state.pendingDeletion senderId =
      none ∧
    (∀ t, findTaskFromReply (jsTrim messageBody) taskTitles = some t →
      (handleTextMessage env st senderId messageBody).messages =
        [(deleteTaskFor env { st with pendingDeletion := removeKey st.pendingDeletion senderId }
           senderId t).1]) ∧
    (findTaskFromReply (jsTrim messageBody) taskTitles = none →
      (handleTextMessage env st senderId messageBody).messages = [DELETION_RETRY_MESSAGE]) := by
  refine ⟨?_, ?_, ?_⟩
  · cases hfind : findTaskFromReply (jsTrim messageBody) taskTitles with
    | some t =>
        simp only [handleTextMessage, hpm, hpd, hfind]
        by_cases hauth : env.isAuthenticated senderId <;>
          simp [deleteTaskFor, setTasksOf, hauth, lookup?_removeKey_self]
    | none =>
        simp [handleTextMessage, hpm, hpd, hfind, lookup?_removeKey_self]
  · intro t hfind
    simp [handleTextMessage, hpm, hpd, hfind]
  · intro hfind
    simp [handleTextMessage, hpm, hpd, hfind]

/-- Witness for the C9 theorem: a sender with a stored two-title list replies
`xyz` (no match); the entry is gone and the restart message is returned. -/
theorem pendingDeletion_consumed_witness :
    lookup? (handleTextMessage exEnv exStatePendingDel exSender "xyz").state.pendingDeletion
      exSender = none ∧
    (handleTextMessage exEnv exStatePendingDel exSender "xyz").messages =
      [DELETION_RETRY_MESSAGE] :=
  ⟨(pendingDeletion_consumed exEnv exStatePendingDel exSender "xyz" ["Buy milk", "Call Alice"]
      (by decide) (by decide)).1,
   (pendingDeletion_consumed exEnv exStatePendingDel exSender "xyz" ["Buy milk", "Call Alice"]
      (by decide) (by decide)).2.2 (by decide)⟩

end VoiceTasks
